import Mathlib

/-!
# Verification of the PyTornado CPACS geometry-extraction pipeline

Shallow embedding of `src/lib/pytornado/fileio/cpacs.py` (geometry
extraction and canonicalization).  Coordinates are modelled as rationals:
for finite IEEE doubles `u`, `v` the Python tests `u - v < 0.0` and
`u == v` hold exactly when `u < v` resp. `u = v`, so the branch structure
of the vertex-reordering code is captured faithfully by `ℚ` with its
linear order.
-/

namespace PyTornado

/-- A 3D point `[x, y, z]` as returned by `get_segment_mid_point`. -/
structure Point where
  x : ℚ
  y : ℚ
  z : ℚ
deriving DecidableEq, Repr

/-- The quadruple of segment corner points `(a, b, c, d)` manipulated by the
vertex re-ordering block of `get_aircraft_wing_segments` (cpacs.py 243-250). -/
structure Quad where
  a : Point
  b : Point
  c : Point
  d : Point
deriving DecidableEq, Repr

/-- Guard of the first reassignment (cpacs.py 243):
`b[1] - a[1] < 0.0 or (b[1] == a[1] and b[2] - a[2] < 0.0)`. -/
def guard1 (q : Quad) : Prop :=
  q.b.y - q.a.y < 0 ∨ (q.b.y = q.a.y ∧ q.b.z - q.a.z < 0)

/-- Guard of the second reassignment (cpacs.py 245):
`c[1] - d[1] < 0.0 or (c[1] == d[1] and c[2] - d[2] < 0.0)`. -/
def guard2 (q : Quad) : Prop :=
  q.c.y - q.d.y < 0 ∨ (q.c.y = q.d.y ∧ q.c.z - q.d.z < 0)

/-- Guard of the third reassignment (cpacs.py 247): `d[0] - a[0] < 0.0`. -/
def guard3 (q : Quad) : Prop := q.d.x - q.a.x < 0

/-- Guard of the fourth reassignment (cpacs.py 249): `c[0] - b[0] < 0.0`. -/
def guard4 (q : Quad) : Prop := q.c.x - q.b.x < 0

instance (q : Quad) : Decidable (guard1 q) :=
  inferInstanceAs (Decidable (_ ∨ _))

instance (q : Quad) : Decidable (guard2 q) :=
  inferInstanceAs (Decidable (_ ∨ _))

instance (q : Quad) : Decidable (guard3 q) :=
  inferInstanceAs (Decidable (_ < _))

instance (q : Quad) : Decidable (guard4 q) :=
  inferInstanceAs (Decidable (_ < _))

/-- cpacs.py 243-244: `a, b, c, d = b, a, c, d` when `guard1` holds. -/
def step1 (q : Quad) : Quad :=
  if guard1 q then ⟨q.b, q.a, q.c, q.d⟩ else q

/-- cpacs.py 245-246: `a, b, c, d = a, b, d, c` when `guard2` holds. -/
def step2 (q : Quad) : Quad :=
  if guard2 q then ⟨q.a, q.b, q.d, q.c⟩ else q

/-- cpacs.py 247-248: `a, b, c, d = d, b, c, a` when `guard3` holds. -/
def step3 (q : Quad) : Quad :=
  if guard3 q then ⟨q.d, q.b, q.c, q.a⟩ else q

/-- cpacs.py 249-250: `a, b, c, d = a, c, b, d` when `guard4` holds. -/
def step4 (q : Quad) : Quad :=
  if guard4 q then ⟨q.a, q.c, q.b, q.d⟩ else q

/-- The vertex canonicalization of `get_aircraft_wing_segments`: the four
guarded reassignments of cpacs.py 243-250 executed in source order. -/
def canon (q : Quad) : Quad := step4 (step3 (step2 (step1 q)))

/-- Strict lexicographic comparison on the `(y, z)` coordinates, the order the
guards of steps 1 and 2 decide (spanwise coordinate first, `z` as tie-break). -/
def lexYZ (P Q : Point) : Prop := P.y < Q.y ∨ (P.y = Q.y ∧ P.z < Q.z)

instance (P Q : Point) : Decidable (lexYZ P Q) :=
  inferInstanceAs (Decidable (_ ∨ _))

/-- A convex planar quadrilateral `A B C D` (root-leading, tip-leading,
tip-trailing, root-trailing) representing a valid wing segment: on each
spanwise edge the root point is strictly lex-below the tip point in `(y, z)`,
and on each of the root and tip chordwise edges the leading point is strictly
ahead of the trailing point in `x`. -/
def ValidSegmentQuad (A B C D : Point) : Prop :=
  lexYZ A B ∧ lexYZ D C ∧ A.x < D.x ∧ B.x < C.x

instance (A B C D : Point) : Decidable (ValidSegmentQuad A B C D) :=
  inferInstanceAs (Decidable (_ ∧ _))

/-- The 8 orderings in which the geometry kernel may hand the four corners of
a wing segment to the canonicalization: each spanwise pair `(a0, b0)` and
`(c0, d0)` may be internally flipped (root/tip exchanged), and the two pairs
may be exchanged as wholes (leading/trailing edge exchanged):
`2 x 2 x 2 = 8` relabelings. -/
def relabelings (A B C D : Point) : List Quad :=
  [⟨A, B, C, D⟩, ⟨B, A, C, D⟩, ⟨A, B, D, C⟩, ⟨B, A, D, C⟩,
   ⟨D, C, B, A⟩, ⟨C, D, B, A⟩, ⟨D, C, A, B⟩, ⟨C, D, A, B⟩]

/-- The multiset of the four corner points held by a vertex quadruple. -/
def quadMultiset (q : Quad) : Multiset Point := {q.a, q.b, q.c, q.d}


-- ===================================================================
-- The extraction pipeline of cpacs.py: data model and operations
-- ===================================================================

/-- The error kinds the pipeline can raise, one per Python exception class
that can escape `load`. -/
inductive LoadErr where
  /-- Python `FileNotFoundError` (cpacs.py 373). -/
  | fileNotFound
  /-- Python `ModuleNotFoundError` from `open_tixi` / `open_tigl`. -/
  | moduleNotFound
  /-- Python `TixiException` propagating from a tixi query. -/
  | tixiError
  /-- Python `ValueError` (missing wings node 177, missing segments node 213). -/
  | valueError
  /-- Python `NameError`: cpacs.py 291 executes `raise ValueError(msg)` but only
  `err_msg` is defined, so evaluating the argument raises `NameError`. -/
  | nameError
  /-- Python `OSError` while writing an airfoil file. -/
  | osError
deriving DecidableEq, Repr

/-- Modelled from the spec: `parse_str` (from `pytornado.fileio.utils`, not
under src/) only has to produce the resolved identifier string here, so it is
modelled as the identity on the queried string. -/
def parseStr (s : String) : String := s

/-- Python `f-string` padding `{n:02}` / `{n:02d}`: decimal digits of `n`,
zero-padded on the left to width 2. -/
def fmt02 (n : ℕ) : String := if n < 10 then "0" ++ toString n else toString n

/-- Model of `os.path.join(dir, file)` for a directory path without trailing
separator. -/
def joinPath (dir file : String) : String := dir ++ "/" ++ file

/-- Kernel answers for one segment: `uID` attribute (`none` models a
`TixiException`), the lower/upper surface points at the four parametric
corners `(η,ξ) = (0,0), (1,0), (1,1), (0,1)`, and the profile names resolved
at the inner and outer section/element (the section/element index indirection
of `wingGetInnerSectionAndElementIndex` / `wingGetOuterSectionAndElementIndex`
followed by `wingGetProfileName` is collapsed into the resulting name). -/
structure SegmentData where
  uidAttr : Option String
  qa : Point × Point
  qb : Point × Point
  qc : Point × Point
  qd : Point × Point
  innerProfile : String
  outerProfile : String

/-- Source answers for one wing: `uID` attribute, `wingGetSymmetry` result,
whether the `segments` node exists, and the segment data in source order. -/
structure WingData where
  uidAttr : Option String
  symmetry : ℕ
  segmentsNodeExists : Bool
  segments : List SegmentData

/-- Source answers for one `wingAirfoil` entry: the `name` element (`none`
models a `TixiException`), the parsed `pointList/x` and `pointList/z`
sequences (`none` models a `TixiException` reading the element), and whether
the file write by `np.savetxt` succeeds. -/
structure AirfoilData where
  nameElem : Option String
  xs : Option (List ℚ)
  zs : Option (List ℚ)
  writeOk : Bool

/-- The `aircraft.refs` dictionary: each key is absent until assigned by
`get_aircraft_refs`. -/
structure RefsState where
  gcenter : Option Point
  rcenter : Option Point
  area : Option ℚ
  span : Option ℚ
  chord : Option ℚ
deriving DecidableEq, Repr

/-- A populated segment: identifier, the four canonicalized vertices
`{a, b, c, d}`, and the two airfoil file-path references. -/
structure Segment where
  uid : String
  vertices : Quad
  airfoilInner : String
  airfoilOuter : String
deriving DecidableEq, Repr

/-- A populated wing: identifier, symmetry indicator, segments in source
order. -/
structure Wing where
  uid : String
  symmetry : ℕ
  segments : List Segment
deriving DecidableEq, Repr

/-- Modelled from the spec: the `Aircraft` model object
(`pytornado.objects.model`, not under src/) as far as `load` populates it —
identifier, wings in source order, reference quantities. -/
structure Aircraft where
  uid : Option String
  wings : List Wing
  refs : RefsState
deriving DecidableEq, Repr

/-- Modelled from the spec: `aircraft.reset()` produces an empty model. -/
def emptyAircraft : Aircraft := ⟨none, [], ⟨none, none, none, none, none⟩⟩

/-- Modelled from the spec: an `Aircraft` is fully populated (usable by the
solver) when the identifier, at least one wing and every reference quantity
are present. -/
def fullyPopulated (a : Aircraft) : Prop :=
  a.uid.isSome ∧ a.wings ≠ [] ∧ a.refs.gcenter.isSome ∧ a.refs.rcenter.isSome
  ∧ a.refs.area.isSome ∧ a.refs.span.isSome ∧ a.refs.chord.isSome

instance (a : Aircraft) : Decidable (fullyPopulated a) :=
  inferInstanceAs (Decidable (_ ∧ _))

/-- Embedding of `get_aircraft_airfoils` (cpacs.py 277-295), for one position: if the
resolved profile name is empty the code executes `raise ValueError(msg)`
where `msg` is undefined, so a `NameError` is raised (cpacs.py 291);
otherwise the airfoil file path `{airfoilsDir}/blade.{profileName}` is
recorded. -/
def resolveAirfoil (dir name : String) : Except LoadErr String :=
  if name = "" then .error .nameError
  else .ok (joinPath dir ("blade." ++ name))

/-- Embedding of `get_segment_mid_point` (cpacs.py 123-138): component-wise average of the
lower- and upper-surface points. -/
def midPoint (lu : Point × Point) : Point :=
  ⟨(lu.1.x + lu.2.x) / 2, (lu.1.y + lu.2.y) / 2, (lu.1.z + lu.2.z) / 2⟩

/-- The wing identifier resolution of cpacs.py 184-187: the `uID` attribute
when readable, else the fallback `WING{i:02}`. -/
def wingUidOf (i : ℕ) (w : WingData) : String :=
  match w.uidAttr with
  | some t => parseStr t
  | none => "WING" ++ fmt02 i

/-- The segment identifier resolution of cpacs.py 222-225: the `uID`
attribute when readable, else the fallback `{wingUid}_SEGMENT{j:02}`. -/
def segmentUidOf (wu : String) (j : ℕ) (s : SegmentData) : String :=
  match s.uidAttr with
  | some t => parseStr t
  | none => wu ++ "_SEGMENT" ++ fmt02 j

/-- One iteration of the segment loop of `get_aircraft_wing_segments`
(cpacs.py 219-261): fallback naming, corner midpoints, canonicalization,
airfoil resolution for both positions. -/
def extractSegment (dir wingUid : String) (j : ℕ) (s : SegmentData) :
    Except LoadErr Segment :=
  let uid := segmentUidOf wingUid j s
  let verts := canon ⟨midPoint s.qa, midPoint s.qb, midPoint s.qc, midPoint s.qd⟩
  match resolveAirfoil dir s.innerProfile with
  | .error e => .error e
  | .ok innerPath =>
    match resolveAirfoil dir s.outerProfile with
    | .error e => .error e
    | .ok outerPath => .ok ⟨uid, verts, innerPath, outerPath⟩

/-- The segment loop of `get_aircraft_wing_segments`, `j` the 1-based ordinal
of the first list entry.  Returns the loop result together with the segments
completed before any failure (a segment on which airfoil resolution fails is
still partially present in the Python model object; completed-object
granularity suffices for every property stated here). -/
def extractSegments (dir wingUid : String) (j : ℕ) :
    List SegmentData → Except LoadErr Unit × List Segment
  | [] => (.ok (), [])
  | s :: rest =>
    match extractSegment dir wingUid j s with
    | .error e => (.error e, [])
    | .ok seg =>
      let t := extractSegments dir wingUid (j + 1) rest
      (t.1, seg :: t.2)

/-- The wing loop of `get_aircraft_wings` (cpacs.py 181-193), `i` the 1-based
ordinal of the first list entry: fallback naming, symmetry, then the segment
loop (which first checks that the `segments` node exists, cpacs.py 210-213).
The wing entry itself is added before its segments are read, so it is present
(with the segments completed so far) even when segment extraction fails. -/
def extractWings (dir : String) (i : ℕ) :
    List WingData → Except LoadErr Unit × List Wing
  | [] => (.ok (), [])
  | w :: rest =>
    let uid := wingUidOf i w
    if w.segmentsNodeExists = false then
      (.error .valueError, [⟨uid, w.symmetry, []⟩])
    else
      match extractSegments dir uid 1 w.segments with
      | (.error e, segs) => (.error e, [⟨uid, w.symmetry, segs⟩])
      | (.ok _, segs) =>
        let t := extractWings dir (i + 1) rest
        (t.1, ⟨uid, w.symmetry, segs⟩ :: t.2)

/-- Embedding of `get_aircraft_wings` (cpacs.py 160-193): raises `ValueError` when the
wings *node* is absent (cpacs.py 171-177); otherwise iterates over however
many `wing` children exist — zero included. -/
def getAircraftWingsS (dir : String) (wingsNodeExists : Bool)
    (ws : List WingData) (a : Aircraft) : Except LoadErr Unit × Aircraft :=
  if wingsNodeExists = false then (.error .valueError, a)
  else
    let t := extractWings dir 1 ws
    (t.1, { a with wings := a.wings ++ t.2 })

/-- Embedding of `get_aircraft_name` (cpacs.py 141-157): if the model node exists, the
`uID` attribute is read (an unreadable attribute raises, uncaught); otherwise
the placeholder is assigned with only a warning. -/
def getAircraftNameS (modelNodeExists : Bool) (modelUid : Option String)
    (a : Aircraft) : Except LoadErr Unit × Aircraft :=
  if modelNodeExists then
    match modelUid with
    | none => (.error .tixiError, a)
    | some s => (.ok (), { a with uid := some (parseStr s) })
  else (.ok (), { a with uid := some "NAME_NOT_FOUND" })


/-- Zero-pad a digit string on the left to width `w`. -/
def pad0 (w : ℕ) (s : String) : String :=
  String.mk (List.replicate (w - s.length) '0') ++ s

/-- The format `COORD_FORMAT = '%+.7f'` (cpacs.py 67) applied to one value:
explicit sign, fixed-point, exactly 7 digits after the decimal point.  The
magnitude is scaled by `10^7` and rounded to the nearest integer (ties
half-up; the concrete values settled here are not at ties, where C's
round-half-even could differ). -/
def formatFixed7 (v : ℚ) : String :=
  let sign := if v < 0 then "-" else "+"
  let m : ℕ := (round (|v| * 10 ^ 7)).toNat
  sign ++ toString (m / 10 ^ 7) ++ "." ++ pad0 7 (toString (m % 10 ^ 7))

/-- The file produced by
`np.savetxt(file, np.transpose([x, z]), header=name, fmt=COORD_FORMAT)`
(cpacs.py 321-326) as its list of lines: `np.savetxt` prefixes the header
with its default comment marker `'# '`, then writes one line per `(x, z)`
pair, the two columns formatted with `COORD_FORMAT` and joined by the default
single-space delimiter. -/
def writeAirfoilFile (name : String) (xs zs : List ℚ) : List String :=
  ("# " ++ name) ::
    (List.zip xs zs).map (fun p => formatFixed7 p.1 ++ " " ++ formatFixed7 p.2)

/-- The airfoil loop of `write_airfoil_files` (cpacs.py 298-326), `i` the
1-based ordinal of the first list entry: fallback naming, coordinate reads,
file write.  Returns the loop result and the `(path, lines)` files written
before any failure. -/
def writeAirfoilFiles (dir : String) (i : ℕ) :
    List AirfoilData → Except LoadErr Unit × List (String × List String)
  | [] => (.ok (), [])
  | af :: rest =>
    let name := match af.nameElem with
      | some t => parseStr t
      | none => "AIRFOIL" ++ fmt02 i
    match af.xs with
    | none => (.error .tixiError, [])
    | some xs =>
      match af.zs with
      | none => (.error .tixiError, [])
      | some zs =>
        if af.writeOk = false then (.error .osError, [])
        else
          let t := writeAirfoilFiles dir (i + 1) rest
          (t.1, (joinPath dir ("blade." ++ name), writeAirfoilFile name xs zs) :: t.2)

/-- Embedding of `get_aircraft_refs` (cpacs.py 329-355) over a query function
`q : path suffix under XPATH_REFS → Option ℚ` (`none` models a
`TixiException`; tixi reads are pure, so repeated reads of the same path give
the same answer).  The assignment order of the source is kept: `gcenter`
zeroed then filled from `point/x`, `point/y`, `point/z`; `rcenter` zeroed
then filled from the *same three paths*; `area`; `span` and `chord` both from
the single `length` path. -/
def getAircraftRefsS (q : String → Option ℚ) (a : Aircraft) :
    Except LoadErr Unit × Aircraft :=
  let a0 := { a with refs := { a.refs with gcenter := some ⟨0, 0, 0⟩ } }
  match q "point/x" with
  | none => (.error .tixiError, a0)
  | some px =>
    let a1 := { a0 with refs := { a0.refs with gcenter := some ⟨px, 0, 0⟩ } }
    match q "point/y" with
    | none => (.error .tixiError, a1)
    | some py =>
      let a2 := { a1 with refs := { a1.refs with gcenter := some ⟨px, py, 0⟩ } }
      match q "point/z" with
      | none => (.error .tixiError, a2)
      | some pz =>
        let a3 := { a2 with refs := { a2.refs with gcenter := some ⟨px, py, pz⟩ } }
        let b0 := { a3 with refs := { a3.refs with rcenter := some ⟨0, 0, 0⟩ } }
        match q "point/x" with
        | none => (.error .tixiError, b0)
        | some rx =>
          let b1 := { b0 with refs := { b0.refs with rcenter := some ⟨rx, 0, 0⟩ } }
          match q "point/y" with
          | none => (.error .tixiError, b1)
          | some ry =>
            let b2 := { b1 with refs := { b1.refs with rcenter := some ⟨rx, ry, 0⟩ } }
            match q "point/z" with
            | none => (.error .tixiError, b2)
            | some rz =>
              let b3 := { b2 with refs := { b2.refs with rcenter := some ⟨rx, ry, rz⟩ } }
              match q "area" with
              | none => (.error .tixiError, b3)
              | some ar =>
                let c1 := { b3 with refs := { b3.refs with area := some ar } }
                match q "length" with
                | none => (.error .tixiError, c1)
                | some sp =>
                  let c2 := { c1 with refs := { c1.refs with span := some sp } }
                  match q "length" with
                  | none => (.error .tixiError, c2)
                  | some ch =>
                    (.ok (), { c2 with refs := { c2.refs with chord := some ch } })

/-- One CPACS source as `load` observes it: availability flags for the file
and the two kernels, the model node and its `uID` attribute, the wings node
and wing data, the airfoil entries, and the reference-value queries. -/
structure CpacsSource where
  fileExists : Bool
  tixiOk : Bool
  tiglOk : Bool
  modelNodeExists : Bool
  modelUid : Option String
  wingsNodeExists : Bool
  wings : List WingData
  airfoils : List AirfoilData
  refQuery : String → Option ℚ

/-- Everything observable about one `load` call: its result, the state of the
caller's aircraft object, whether the tixi handle was acquired, whether
`tixi.close()` was executed, and the airfoil files written. -/
structure LoadOutcome where
  res : Except LoadErr Unit
  aircraft : Aircraft
  opened : Bool
  closed : Bool
  files : List (String × List String)

/-- Embedding of `load` (cpacs.py 358-387): existence check, open tixi, open tigl, reset
the aircraft, then name, wings, airfoil files and reference values in source
order, finally `tixi.close()`.  There is no `try`/`finally`: any exception
skips the close.  The aircraft is mutated in place, so on failure the caller
keeps whatever was populated before the raise. -/
def load (src : CpacsSource) (aIn : Aircraft) (dir : String) : LoadOutcome :=
  if src.fileExists = false then ⟨.error .fileNotFound, aIn, false, false, []⟩
  else if src.tixiOk = false then ⟨.error .moduleNotFound, aIn, false, false, []⟩
  else if src.tiglOk = false then ⟨.error .moduleNotFound, aIn, true, false, []⟩
  else
    let t1 := getAircraftNameS src.modelNodeExists src.modelUid emptyAircraft
    match t1.1 with
    | .error e => ⟨.error e, t1.2, true, false, []⟩
    | .ok _ =>
      let t2 := getAircraftWingsS dir src.wingsNodeExists src.wings t1.2
      match t2.1 with
      | .error e => ⟨.error e, t2.2, true, false, []⟩
      | .ok _ =>
        let t3 := writeAirfoilFiles dir 1 src.airfoils
        match t3.1 with
        | .error e => ⟨.error e, t2.2, true, false, t3.2⟩
        | .ok _ =>
          let t4 := getAircraftRefsS src.refQuery t2.2
          match t4.1 with
          | .error e => ⟨.error e, t4.2, true, false, t3.2⟩
          | .ok _ => ⟨.ok (), t4.2, true, true, t3.2⟩

/-- A wing entry with a readable `uID` attribute and no segments. -/
def wdW : WingData := ⟨some "WA", 0, true, []⟩

/-- A wing entry whose `uID` attribute raises (fallback naming applies). -/
def wdNoUid : WingData := ⟨none, 0, true, []⟩

/-- A segment entry with a readable `uID` attribute. -/
def sdP : SegmentData :=
  ⟨some "S1", (⟨0, 0, 0⟩, ⟨0, 0, 0⟩), (⟨0, 6, 0⟩, ⟨0, 6, 0⟩),
   (⟨1, 6, 0⟩, ⟨1, 6, 0⟩), (⟨1, 0, 0⟩, ⟨1, 0, 0⟩), "P", "P"⟩

/-- A segment entry whose `uID` attribute raises (fallback naming applies). -/
def sdNoUid : SegmentData :=
  ⟨none, (⟨0, 0, 0⟩, ⟨0, 0, 0⟩), (⟨0, 6, 0⟩, ⟨0, 6, 0⟩),
   (⟨1, 6, 0⟩, ⟨1, 6, 0⟩), (⟨1, 0, 0⟩, ⟨1, 0, 0⟩), "P", "P"⟩

/-- The segment `extractSegments` produces for `sdNoUid` as 2nd segment of
wing `W1`. -/
def segOut : Segment :=
  ⟨"W1_SEGMENT02",
   canon ⟨midPoint sdNoUid.qa, midPoint sdNoUid.qb, midPoint sdNoUid.qc,
          midPoint sdNoUid.qd⟩,
   joinPath "air" ("blade." ++ "P"), joinPath "air" ("blade." ++ "P")⟩

/-- A source whose wings node is missing: `get_aircraft_wings` raises. -/
def srcMissingWingsNode : CpacsSource :=
  ⟨true, true, true, true, some "AC", false, [], [], fun _ => some 1⟩

/-- A source on which `load` completes. -/
def srcAllOk : CpacsSource :=
  ⟨true, true, true, true, some "AC", true, [], [], fun _ => some 1⟩

/-- A source with one wing and one segment, and three airfoil entries of
which the second fails to write: `write_airfoil_files` raises after the
wing was already extracted. -/
def srcWriteFail : CpacsSource :=
  ⟨true, true, true, true, some "AC", true,
   [⟨some "W1", 1, true, [sdP]⟩],
   [⟨some "A1", some [], some [], true⟩, ⟨some "A2", some [], some [], false⟩,
    ⟨some "A3", some [], some [], true⟩],
   fun _ => some 1⟩

-- ----- helper lemmas about the guards -----

theorem guard1_iff (q : Quad) : guard1 q ↔ lexYZ q.b q.a := by
  unfold guard1 lexYZ
  rw [sub_neg, sub_neg]

theorem guard2_iff (q : Quad) : guard2 q ↔ lexYZ q.c q.d := by
  unfold guard2 lexYZ
  rw [sub_neg, sub_neg]

theorem guard3_iff (q : Quad) : guard3 q ↔ q.d.x < q.a.x := by
  unfold guard3
  rw [sub_neg]

theorem guard4_iff (q : Quad) : guard4 q ↔ q.c.x < q.b.x := by
  unfold guard4
  rw [sub_neg]

theorem lexYZ_asymm {P Q : Point} (h : lexYZ P Q) : ¬ lexYZ Q P := by
  rintro (g | ⟨g, g'⟩) <;> rcases h with h | ⟨h, h'⟩ <;> linarith

theorem step1_pos (q : Quad) (h : guard1 q) : step1 q = ⟨q.b, q.a, q.c, q.d⟩ :=
  if_pos h

theorem step1_neg (q : Quad) (h : ¬ guard1 q) : step1 q = q :=
  if_neg h

theorem step2_pos (q : Quad) (h : guard2 q) : step2 q = ⟨q.a, q.b, q.d, q.c⟩ :=
  if_pos h

theorem step2_neg (q : Quad) (h : ¬ guard2 q) : step2 q = q :=
  if_neg h

theorem step3_pos (q : Quad) (h : guard3 q) : step3 q = ⟨q.d, q.b, q.c, q.a⟩ :=
  if_pos h

theorem step3_neg (q : Quad) (h : ¬ guard3 q) : step3 q = q :=
  if_neg h

theorem step4_pos (q : Quad) (h : guard4 q) : step4 q = ⟨q.a, q.c, q.b, q.d⟩ :=
  if_pos h

theorem step4_neg (q : Quad) (h : ¬ guard4 q) : step4 q = q :=
  if_neg h

-- ----- multiset of the four corner slots, for the permutation invariant -----

theorem ms_swap_ab (p q r s : Point) :
    ({q, p, r, s} : Multiset Point) = {p, q, r, s} := by
  simp only [Multiset.insert_eq_cons]
  exact Multiset.cons_swap q p _

theorem ms_swap_cd (p q r s : Point) :
    ({p, q, s, r} : Multiset Point) = {p, q, r, s} := by
  simp only [Multiset.insert_eq_cons]
  exact congrArg _ (congrArg _ (Multiset.cons_swap s r _))

theorem ms_swap_ad (p q r s : Point) :
    ({s, q, r, p} : Multiset Point) = {p, q, r, s} := by
  have h : ∀ t : Point, Multiset.count t ({s, q, r, p} : Multiset Point) =
      Multiset.count t ({p, q, r, s} : Multiset Point) := by
    intro t
    simp only [Multiset.insert_eq_cons, Multiset.count_cons, Multiset.count_singleton]
    ring
  exact Multiset.ext.mpr h

theorem ms_swap_bc (p q r s : Point) :
    ({p, r, q, s} : Multiset Point) = {p, q, r, s} := by
  simp only [Multiset.insert_eq_cons]
  exact congrArg _ (Multiset.cons_swap r q _)

theorem step1_ms (q : Quad) : quadMultiset (step1 q) = quadMultiset q := by
  unfold step1
  split
  · exact ms_swap_ab q.a q.b q.c q.d
  · rfl

theorem step2_ms (q : Quad) : quadMultiset (step2 q) = quadMultiset q := by
  unfold step2
  split
  · exact ms_swap_cd q.a q.b q.c q.d
  · rfl

theorem step3_ms (q : Quad) : quadMultiset (step3 q) = quadMultiset q := by
  unfold step3
  split
  · exact ms_swap_ad q.a q.b q.c q.d
  · rfl

theorem step4_ms (q : Quad) : quadMultiset (step4 q) = quadMultiset q := by
  unfold step4
  split
  · exact ms_swap_bc q.a q.b q.c q.d
  · rfl

-- ----- claim theorems about the canonicalization -----

/-- C10: for every input quadruple of 3D points, the vertex canonicalization
returns a permutation of its input: each guarded reassignment only transposes
two of the four labels, so the multiset of the four corner points is preserved
exactly — no point is modified, duplicated, or dropped. -/
theorem canon_preserves_multiset (q : Quad) :
    quadMultiset (canon q) = quadMultiset q :=
  (step4_ms _).trans ((step3_ms _).trans ((step2_ms _).trans (step1_ms q)))

/-- C1: for every convex planar quadrilateral `A B C D` representing a valid
wing segment (root edge strictly at the lower spanwise coordinate on each
spanwise pair, leading corners strictly ahead of trailing corners in `x`), the
canonicalization applied to any of the 8 relabelings the kernel might return
(each spanwise pair internally flipped or not, the two pairs exchanged or not)
yields the single canonical assignment `(a, b, c, d) = (A, B, C, D)`. -/
theorem canon_order_invariance (A B C D : Point)
    (hv : ValidSegmentQuad A B C D) :
    ∀ q ∈ relabelings A B C D, canon q = ⟨A, B, C, D⟩ := by
  obtain ⟨hAB, hDC, hAD, hBC⟩ := hv
  have nBA : ¬ lexYZ B A := lexYZ_asymm hAB
  have nCD : ¬ lexYZ C D := lexYZ_asymm hDC
  have nDA : ¬ D.x < A.x := lt_asymm hAD
  have nCB : ¬ C.x < B.x := lt_asymm hBC
  intro q hq
  simp only [relabelings, List.mem_cons, List.not_mem_nil, or_false] at hq
  rcases hq with h | h | h | h | h | h | h | h <;> subst h
  · -- (A, B, C, D): all four guards are false
    show step4 (step3 (step2 (step1 ⟨A, B, C, D⟩))) = ⟨A, B, C, D⟩
    rw [step1_neg ⟨A, B, C, D⟩ ((guard1_iff ⟨A, B, C, D⟩).not.mpr nBA),
        step2_neg ⟨A, B, C, D⟩ ((guard2_iff ⟨A, B, C, D⟩).not.mpr nCD),
        step3_neg ⟨A, B, C, D⟩ ((guard3_iff ⟨A, B, C, D⟩).not.mpr nDA),
        step4_neg ⟨A, B, C, D⟩ ((guard4_iff ⟨A, B, C, D⟩).not.mpr nCB)]
  · -- (B, A, C, D): step 1 fires
    show step4 (step3 (step2 (step1 ⟨B, A, C, D⟩))) = ⟨A, B, C, D⟩
    rw [step1_pos ⟨B, A, C, D⟩ ((guard1_iff ⟨B, A, C, D⟩).mpr hAB)]
    rw [step2_neg ⟨A, B, C, D⟩ ((guard2_iff ⟨A, B, C, D⟩).not.mpr nCD),
        step3_neg ⟨A, B, C, D⟩ ((guard3_iff ⟨A, B, C, D⟩).not.mpr nDA),
        step4_neg ⟨A, B, C, D⟩ ((guard4_iff ⟨A, B, C, D⟩).not.mpr nCB)]
  · -- (A, B, D, C): step 2 fires
    show step4 (step3 (step2 (step1 ⟨A, B, D, C⟩))) = ⟨A, B, C, D⟩
    rw [step1_neg ⟨A, B, D, C⟩ ((guard1_iff ⟨A, B, D, C⟩).not.mpr nBA)]
    rw [step2_pos ⟨A, B, D, C⟩ ((guard2_iff ⟨A, B, D, C⟩).mpr hDC)]
    rw [step3_neg ⟨A, B, C, D⟩ ((guard3_iff ⟨A, B, C, D⟩).not.mpr nDA),
        step4_neg ⟨A, B, C, D⟩ ((guard4_iff ⟨A, B, C, D⟩).not.mpr nCB)]
  · -- (B, A, D, C): steps 1 and 2 fire
    show step4 (step3 (step2 (step1 ⟨B, A, D, C⟩))) = ⟨A, B, C, D⟩
    rw [step1_pos ⟨B, A, D, C⟩ ((guard1_iff ⟨B, A, D, C⟩).mpr hAB)]
    rw [step2_pos ⟨A, B, D, C⟩ ((guard2_iff ⟨A, B, D, C⟩).mpr hDC)]
    rw [step3_neg ⟨A, B, C, D⟩ ((guard3_iff ⟨A, B, C, D⟩).not.mpr nDA),
        step4_neg ⟨A, B, C, D⟩ ((guard4_iff ⟨A, B, C, D⟩).not.mpr nCB)]
  · -- (D, C, B, A): steps 3 and 4 fire
    show step4 (step3 (step2 (step1 ⟨D, C, B, A⟩))) = ⟨A, B, C, D⟩
    rw [step1_neg ⟨D, C, B, A⟩ ((guard1_iff ⟨D, C, B, A⟩).not.mpr nCD),
        step2_neg ⟨D, C, B, A⟩ ((guard2_iff ⟨D, C, B, A⟩).not.mpr nBA)]
    rw [step3_pos ⟨D, C, B, A⟩ ((guard3_iff ⟨D, C, B, A⟩).mpr hAD)]
    rw [step4_pos ⟨A, C, B, D⟩ ((guard4_iff ⟨A, C, B, D⟩).mpr hBC)]
  · -- (C, D, B, A): steps 1, 3 and 4 fire
    show step4 (step3 (step2 (step1 ⟨C, D, B, A⟩))) = ⟨A, B, C, D⟩
    rw [step1_pos ⟨C, D, B, A⟩ ((guard1_iff ⟨C, D, B, A⟩).mpr hDC)]
    rw [step2_neg ⟨D, C, B, A⟩ ((guard2_iff ⟨D, C, B, A⟩).not.mpr nBA)]
    rw [step3_pos ⟨D, C, B, A⟩ ((guard3_iff ⟨D, C, B, A⟩).mpr hAD)]
    rw [step4_pos ⟨A, C, B, D⟩ ((guard4_iff ⟨A, C, B, D⟩).mpr hBC)]
  · -- (D, C, A, B): steps 2, 3 and 4 fire
    show step4 (step3 (step2 (step1 ⟨D, C, A, B⟩))) = ⟨A, B, C, D⟩
    rw [step1_neg ⟨D, C, A, B⟩ ((guard1_iff ⟨D, C, A, B⟩).not.mpr nCD)]
    rw [step2_pos ⟨D, C, A, B⟩ ((guard2_iff ⟨D, C, A, B⟩).mpr hAB)]
    rw [step3_pos ⟨D, C, B, A⟩ ((guard3_iff ⟨D, C, B, A⟩).mpr hAD)]
    rw [step4_pos ⟨A, C, B, D⟩ ((guard4_iff ⟨A, C, B, D⟩).mpr hBC)]
  · -- (C, D, A, B): all four steps fire
    show step4 (step3 (step2 (step1 ⟨C, D, A, B⟩))) = ⟨A, B, C, D⟩
    rw [step1_pos ⟨C, D, A, B⟩ ((guard1_iff ⟨C, D, A, B⟩).mpr hDC)]
    rw [step2_pos ⟨D, C, A, B⟩ ((guard2_iff ⟨D, C, A, B⟩).mpr hAB)]
    rw [step3_pos ⟨D, C, B, A⟩ ((guard3_iff ⟨D, C, B, A⟩).mpr hAD)]
    rw [step4_pos ⟨A, C, B, D⟩ ((guard4_iff ⟨A, C, B, D⟩).mpr hBC)]

/-- Witness for C1 at a concrete valid segment quadrilateral, with the
relabeling that exchanges the two spanwise pairs. -/
theorem canon_order_invariance_witness :
    ValidSegmentQuad ⟨0, 0, 0⟩ ⟨1, 6, 0⟩ ⟨3, 6, 0⟩ ⟨4, 0, 0⟩ ∧
    (⟨⟨4, 0, 0⟩, ⟨3, 6, 0⟩, ⟨1, 6, 0⟩, ⟨0, 0, 0⟩⟩ : Quad) ∈
      relabelings ⟨0, 0, 0⟩ ⟨1, 6, 0⟩ ⟨3, 6, 0⟩ ⟨4, 0, 0⟩ ∧
    canon ⟨⟨4, 0, 0⟩, ⟨3, 6, 0⟩, ⟨1, 6, 0⟩, ⟨0, 0, 0⟩⟩ =
      ⟨⟨0, 0, 0⟩, ⟨1, 6, 0⟩, ⟨3, 6, 0⟩, ⟨4, 0, 0⟩⟩ :=
  ⟨by norm_num [ValidSegmentQuad, lexYZ], by simp [relabelings],
    canon_order_invariance _ _ _ _ (by norm_num [ValidSegmentQuad, lexYZ]) _
      (by simp [relabelings])⟩

/-- C2 counterexample: the canonicalization is not idempotent on arbitrary
quadruples.  For the cyclically rotated input `(B, C, D, A)` of a valid
segment quad `(A, B, C, D)` (an ordering outside the 8 handled relabelings)
a second application changes the result again. -/
theorem canon_not_idempotent :
    canon (canon ⟨⟨1, 6, 0⟩, ⟨3, 6, 0⟩, ⟨4, 0, 0⟩, ⟨0, 0, 0⟩⟩) ≠
      canon ⟨⟨1, 6, 0⟩, ⟨3, 6, 0⟩, ⟨4, 0, 0⟩, ⟨0, 0, 0⟩⟩ := by
  have h1 : canon ⟨⟨1, 6, 0⟩, ⟨3, 6, 0⟩, ⟨4, 0, 0⟩, ⟨0, 0, 0⟩⟩ =
      ⟨⟨0, 0, 0⟩, ⟨3, 6, 0⟩, ⟨4, 0, 0⟩, ⟨1, 6, 0⟩⟩ := by
    show step4 (step3 (step2 (step1 ⟨⟨1, 6, 0⟩, ⟨3, 6, 0⟩, ⟨4, 0, 0⟩, ⟨0, 0, 0⟩⟩))) = _
    rw [step1_neg _ (by norm_num [guard1]), step2_neg _ (by norm_num [guard2]),
        step3_pos _ (by norm_num [guard3])]
    rw [step4_neg ⟨⟨0, 0, 0⟩, ⟨3, 6, 0⟩, ⟨4, 0, 0⟩, ⟨1, 6, 0⟩⟩ (by norm_num [guard4])]
  have h2 : canon ⟨⟨0, 0, 0⟩, ⟨3, 6, 0⟩, ⟨4, 0, 0⟩, ⟨1, 6, 0⟩⟩ =
      ⟨⟨0, 0, 0⟩, ⟨1, 6, 0⟩, ⟨3, 6, 0⟩, ⟨4, 0, 0⟩⟩ := by
    show step4 (step3 (step2 (step1 ⟨⟨0, 0, 0⟩, ⟨3, 6, 0⟩, ⟨4, 0, 0⟩, ⟨1, 6, 0⟩⟩))) = _
    rw [step1_neg _ (by norm_num [guard1]), step2_pos _ (by norm_num [guard2])]
    rw [step3_neg ⟨⟨0, 0, 0⟩, ⟨3, 6, 0⟩, ⟨1, 6, 0⟩, ⟨4, 0, 0⟩⟩ (by norm_num [guard3])]
    rw [step4_pos ⟨⟨0, 0, 0⟩, ⟨3, 6, 0⟩, ⟨1, 6, 0⟩, ⟨4, 0, 0⟩⟩ (by norm_num [guard4])]
  rw [h1, h2]
  intro h
  rw [Quad.mk.injEq, Point.mk.injEq, Point.mk.injEq, Point.mk.injEq,
    Point.mk.injEq] at h
  norm_num at h

/-- C2 (amended): a quadruple on which all four guard conditions are already
false — an already-canonical quadruple — is returned unchanged; idempotence
holds on such inputs; it does not hold for arbitrary quadruples. -/
theorem canon_fixed_of_guards_false (q : Quad)
    (h1 : ¬ guard1 q) (h2 : ¬ guard2 q) (h3 : ¬ guard3 q) (h4 : ¬ guard4 q) :
    canon q = q := by
  show step4 (step3 (step2 (step1 q))) = q
  rw [step1_neg q h1, step2_neg q h2, step3_neg q h3, step4_neg q h4]

/-- Witness for the amended C2 at a concrete canonical quadruple. -/
theorem canon_fixed_of_guards_false_witness :
    (¬ guard1 ⟨⟨0, 0, 0⟩, ⟨1, 6, 0⟩, ⟨3, 6, 0⟩, ⟨4, 0, 0⟩⟩ ∧
     ¬ guard2 ⟨⟨0, 0, 0⟩, ⟨1, 6, 0⟩, ⟨3, 6, 0⟩, ⟨4, 0, 0⟩⟩ ∧
     ¬ guard3 ⟨⟨0, 0, 0⟩, ⟨1, 6, 0⟩, ⟨3, 6, 0⟩, ⟨4, 0, 0⟩⟩ ∧
     ¬ guard4 ⟨⟨0, 0, 0⟩, ⟨1, 6, 0⟩, ⟨3, 6, 0⟩, ⟨4, 0, 0⟩⟩) ∧
    canon ⟨⟨0, 0, 0⟩, ⟨1, 6, 0⟩, ⟨3, 6, 0⟩, ⟨4, 0, 0⟩⟩ =
      ⟨⟨0, 0, 0⟩, ⟨1, 6, 0⟩, ⟨3, 6, 0⟩, ⟨4, 0, 0⟩⟩ :=
  ⟨⟨by norm_num [guard1], by norm_num [guard2],
    by norm_num [guard3], by norm_num [guard4]⟩,
    canon_fixed_of_guards_false _ (by norm_num [guard1]) (by norm_num [guard2])
      (by norm_num [guard3]) (by norm_num [guard4])⟩

-- ===================================================================
-- C3 / C4: error behavior of airfoil resolution and wing extraction
-- ===================================================================

/-- C3 (code bug): for an empty resolved profile name the airfoil resolution
step does fail, but with a `NameError` — cpacs.py 291 raises
`ValueError(msg)` where only `err_msg` is defined — not with the
`ValueError`-kind validation error the spec describes. -/
theorem resolveAirfoil_empty_name (dir : String) :
    resolveAirfoil dir "" = .error .nameError ∧
    LoadErr.nameError ≠ LoadErr.valueError :=
  ⟨rfl, by decide⟩

/-- C4 (code bug): a wings node that exists but contains zero `wing` children
is accepted by `get_aircraft_wings` without error, leaving an empty wing
mapping; only a *missing* wings node raises the `ValueError` — contradicting
the code's own error message "The aircraft must have at least one wing.". -/
theorem zero_wing_children_accepted :
    getAircraftWingsS "airfoils" true [] emptyAircraft = (.ok (), emptyAircraft) ∧
    getAircraftWingsS "airfoils" false [] emptyAircraft =
      (.error .valueError, emptyAircraft) :=
  ⟨rfl, rfl⟩

-- ===================================================================
-- C5: airfoil coordinate file format
-- ===================================================================

theorem formatFixed7_eval (v : ℚ) (m : ℕ) (hv : ¬ v < 0)
    (hm : round (v * 10 ^ 7) = (m : ℤ)) :
    formatFixed7 v =
      "+" ++ toString (m / 10 ^ 7) ++ "." ++ pad0 7 (toString (m % 10 ^ 7)) := by
  unfold formatFixed7
  rw [if_neg hv, abs_of_nonneg (not_lt.mp hv), hm, Int.toNat_natCast]

theorem formatFixed7_zero : formatFixed7 0 = "+0.0000000" := by
  rw [formatFixed7_eval 0 0 (by norm_num)
    (by rw [round_eq, Int.floor_eq_iff] ; norm_num)]
  decide

theorem formatFixed7_one : formatFixed7 1 = "+1.0000000" := by
  rw [formatFixed7_eval 1 10000000 (by norm_num)
    (by rw [round_eq, Int.floor_eq_iff] ; norm_num)]
  decide

theorem formatFixed7_two : formatFixed7 2 = "+2.0000000" := by
  rw [formatFixed7_eval 2 20000000 (by norm_num)
    (by rw [round_eq, Int.floor_eq_iff] ; norm_num)]
  decide

theorem formatFixed7_tenth : formatFixed7 (1 / 10) = "+0.1000000" := by
  rw [formatFixed7_eval (1 / 10) 1000000 (by norm_num)
    (by rw [round_eq, Int.floor_eq_iff] ; norm_num)]
  decide

theorem formatFixed7_fifth : formatFixed7 (1 / 5) = "+0.2000000" := by
  rw [formatFixed7_eval (1 / 5) 2000000 (by norm_num)
    (by rw [round_eq, Int.floor_eq_iff] ; norm_num)]
  decide

/-- C5 counterexample: at the claim's own input the first line of the written
file is not the bare profile name — `np.savetxt` prefixes its header with the
default comment marker, giving `# NACA0012`. -/
theorem write_airfoil_header_counterexample :
    writeAirfoilFile "NACA0012" [0, 1, 2] [0, 1 / 10, 1 / 5] ≠
      ["NACA0012", "+0.0000000 +0.0000000", "+1.0000000 +0.1000000",
       "+2.0000000 +0.2000000"] := by
  intro h
  have h0 := congrArg (fun l => l[0]?) h
  simp only [writeAirfoilFile, List.getElem?_cons_zero, Option.some.injEq] at h0
  exact absurd h0 (by decide)

/-- C5 (amended): the written file is one header line whose content is
`'# '` followed by the profile name (the `np.savetxt` comment prefix), then
`L` data lines, each pair formatted `%+.7f` and space-separated; at the
claim's concrete input the file is exactly
`# NACA0012 / +0.0000000 +0.0000000 / +1.0000000 +0.1000000 /
+2.0000000 +0.2000000`. -/
theorem write_airfoil_file_format :
    (∀ (name : String) (xs zs : List ℚ), xs.length = zs.length →
      (writeAirfoilFile name xs zs).length = xs.length + 1 ∧
      (writeAirfoilFile name xs zs).head? = some ("# " ++ name)) ∧
    writeAirfoilFile "NACA0012" [0, 1, 2] [0, 1 / 10, 1 / 5] =
      ["# NACA0012", "+0.0000000 +0.0000000", "+1.0000000 +0.1000000",
       "+2.0000000 +0.2000000"] := by
  constructor
  · intro name xs zs h
    constructor
    · simp [writeAirfoilFile, List.length_zip, h]
    · rfl
  · unfold writeAirfoilFile
    simp only [List.zip_cons_cons, List.zip_nil_right, List.map_cons,
      List.map_nil, formatFixed7_zero, formatFixed7_one, formatFixed7_two,
      formatFixed7_tenth, formatFixed7_fifth]
    decide

/-- Witness for the amended C5 at a concrete equal-length input. -/
theorem write_airfoil_file_format_witness :
    (([0, 1, 2] : List ℚ).length = ([0, 1 / 10, 1 / 5] : List ℚ).length) ∧
    (writeAirfoilFile "NACA0012" [0, 1, 2] [0, 1 / 10, 1 / 5]).length =
      ([0, 1, 2] : List ℚ).length + 1 ∧
    (writeAirfoilFile "NACA0012" [0, 1, 2] [0, 1 / 10, 1 / 5]).head? =
      some ("# " ++ "NACA0012") :=
  ⟨rfl, (write_airfoil_file_format.1 "NACA0012" [0, 1, 2] [0, 1 / 10, 1 / 5] rfl).1,
    (write_airfoil_file_format.1 "NACA0012" [0, 1, 2] [0, 1 / 10, 1 / 5] rfl).2⟩

-- ===================================================================
-- C8: reference-quantity aliasing
-- ===================================================================

/-- C8: after a successful reference extraction the rotation center equals
the geometric center component-wise (both read from `point/x`, `point/y`,
`point/z`) and the reference chord equals the reference span (both read from
the single `length` location). -/
theorem refs_rcenter_gcenter_chord_span (q : String → Option ℚ) (a : Aircraft)
    (h : (getAircraftRefsS q a).1 = .ok ()) :
    (getAircraftRefsS q a).2.refs.rcenter = (getAircraftRefsS q a).2.refs.gcenter ∧
    (getAircraftRefsS q a).2.refs.chord = (getAircraftRefsS q a).2.refs.span := by
  rcases hx : q "point/x" with _ | px <;>
    rcases hy : q "point/y" with _ | py <;>
      rcases hz : q "point/z" with _ | pz <;>
        rcases har : q "area" with _ | ar <;>
          rcases hln : q "length" with _ | l <;>
            simp_all [getAircraftRefsS]

/-- Witness for C8 at a concrete query function. -/
theorem refs_rcenter_gcenter_chord_span_witness :
    (getAircraftRefsS (fun p => if p = "area" then some 2 else some 1)
        emptyAircraft).1 = .ok () ∧
    ((getAircraftRefsS (fun p => if p = "area" then some 2 else some 1)
        emptyAircraft).2.refs.rcenter =
      (getAircraftRefsS (fun p => if p = "area" then some 2 else some 1)
        emptyAircraft).2.refs.gcenter ∧
     (getAircraftRefsS (fun p => if p = "area" then some 2 else some 1)
        emptyAircraft).2.refs.chord =
      (getAircraftRefsS (fun p => if p = "area" then some 2 else some 1)
        emptyAircraft).2.refs.span) :=
  ⟨rfl, refs_rcenter_gcenter_chord_span _ emptyAircraft rfl⟩

-- ===================================================================
-- C9: fallback naming
-- ===================================================================

theorem extractSegment_ok_uid (dir wu : String) (j : ℕ) (s : SegmentData)
    (seg : Segment) (h : extractSegment dir wu j s = .ok seg) :
    seg.uid = segmentUidOf wu j s := by
  unfold extractSegment at h
  rcases hin : resolveAirfoil dir s.innerProfile with e | ip <;>
    rcases hoo : resolveAirfoil dir s.outerProfile with e2 | op <;>
      simp only [hin, hoo] at h
  · exact Except.noConfusion h
  · exact Except.noConfusion h
  · exact Except.noConfusion h
  · injection h with h4
    rw [← h4]

theorem extractSegments_uid (dir wu : String) :
    ∀ (ss : List SegmentData) (j k : ℕ) (s : SegmentData) (out : Segment),
      ss[k]? = some s → s.uidAttr = none →
      (extractSegments dir wu j ss).2[k]? = some out →
      out.uid = wu ++ "_SEGMENT" ++ fmt02 (j + k) := by
  intro ss
  induction ss with
  | nil => intro j k s out hs _ _; simp at hs
  | cons head rest ih =>
    intro j k s out hs hattr hout
    rcases hES : extractSegment dir wu j head with e | seg
    · simp [extractSegments, hES] at hout
    · simp only [extractSegments, hES] at hout
      cases k with
      | zero =>
        simp only [List.getElem?_cons_zero, Option.some.injEq] at hout hs
        rw [← hs] at hattr
        rw [← hout]
        have h3 := extractSegment_ok_uid dir wu j head seg hES
        rw [h3]
        simp [segmentUidOf, hattr]
      | succ k2 =>
        simp only [List.getElem?_cons_succ] at hout hs
        have h2 := ih (j + 1) k2 s out hs hattr hout
        rw [show j + 1 + k2 = j + (k2 + 1) by omega] at h2
        exact h2

theorem extractWings_cons_zero (dir : String) (i : ℕ) (head : WingData)
    (rest : List WingData) (out : Wing)
    (hout : (extractWings dir i (head :: rest)).2[0]? = some out) :
    out.uid = wingUidOf i head := by
  unfold extractWings at hout
  by_cases hseg : head.segmentsNodeExists = false
  · rw [if_pos hseg] at hout
    simp only [List.getElem?_cons_zero, Option.some.injEq] at hout
    rw [← hout]
  · rw [if_neg hseg] at hout
    rcases hES : extractSegments dir (wingUidOf i head) 1 head.segments
      with ⟨r, segs⟩
    cases r with
    | error e =>
      simp only [hES] at hout
      simp only [List.getElem?_cons_zero, Option.some.injEq] at hout
      rw [← hout]
    | ok u =>
      simp only [hES] at hout
      simp only [List.getElem?_cons_zero, Option.some.injEq] at hout
      rw [← hout]

theorem extractWings_cons_succ (dir : String) (i : ℕ) (head : WingData)
    (rest : List WingData) (k : ℕ) (out : Wing)
    (hout : (extractWings dir i (head :: rest)).2[k + 1]? = some out) :
    (extractWings dir (i + 1) rest).2[k]? = some out := by
  unfold extractWings at hout
  by_cases hseg : head.segmentsNodeExists = false
  · rw [if_pos hseg] at hout
    simp at hout
  · rw [if_neg hseg] at hout
    rcases hES : extractSegments dir (wingUidOf i head) 1 head.segments
      with ⟨r, segs⟩
    cases r with
    | error e =>
      simp only [hES] at hout
      simp at hout
    | ok u =>
      simp only [hES] at hout
      simpa using hout

theorem extractWings_uid (dir : String) :
    ∀ (ws : List WingData) (i k : ℕ) (w : WingData) (out : Wing),
      ws[k]? = some w → w.uidAttr = none →
      (extractWings dir i ws).2[k]? = some out →
      out.uid = "WING" ++ fmt02 (i + k) := by
  intro ws
  induction ws with
  | nil => intro i k w out hw _ _; simp at hw
  | cons head rest ih =>
    intro i k w out hw hattr hout
    cases k with
    | zero =>
      simp only [List.getElem?_cons_zero, Option.some.injEq] at hw
      rw [← hw] at hattr
      have h3 := extractWings_cons_zero dir i head rest out hout
      rw [h3]
      simp [wingUidOf, hattr]
    | succ k2 =>
      simp only [List.getElem?_cons_succ] at hw
      have h2 := ih (i + 1) k2 w out hw hattr
        (extractWings_cons_succ dir i head rest k2 out hout)
      rw [show i + 1 + k2 = i + (k2 + 1) by omega] at h2
      exact h2

/-- C9: a wing whose `uID` attribute is unreadable, appearing at 0-based
position `k` of the wing list (ordinal `1 + k`), is named
`WING` + zero-padded ordinal; a segment whose `uID` attribute is unreadable,
at 0-based position `k` within wing `wu`, is named
`wu` + `_SEGMENT` + zero-padded ordinal. -/
theorem fallback_naming :
    (∀ (dir : String) (ws : List WingData) (k : ℕ) (w : WingData) (out : Wing),
      ws[k]? = some w → w.uidAttr = none →
      (extractWings dir 1 ws).2[k]? = some out →
      out.uid = "WING" ++ fmt02 (1 + k)) ∧
    (∀ (dir wu : String) (ss : List SegmentData) (k : ℕ) (s : SegmentData)
      (out : Segment), ss[k]? = some s → s.uidAttr = none →
      (extractSegments dir wu 1 ss).2[k]? = some out →
      out.uid = wu ++ "_SEGMENT" ++ fmt02 (1 + k)) :=
  ⟨fun dir ws k w out hw ha ho => extractWings_uid dir ws 1 k w out hw ha ho,
   fun dir wu ss k s out hs ha ho => extractSegments_uid dir wu ss 1 k s out hs ha ho⟩

/-- Witness for C9: the 3rd wing with unreadable identifier becomes `WING03`;
the 2nd segment of wing `W1` with unreadable identifier becomes
`W1_SEGMENT02`. -/
theorem fallback_naming_witness :
    (([wdW, wdW, wdNoUid] : List WingData)[2]? = some wdNoUid ∧
     wdNoUid.uidAttr = none ∧
     (extractWings "air" 1 [wdW, wdW, wdNoUid]).2[2]? = some ⟨"WING03", 0, []⟩ ∧
     Wing.uid ⟨"WING03", 0, []⟩ = "WING" ++ fmt02 (1 + 2)) ∧
    (([sdP, sdNoUid] : List SegmentData)[1]? = some sdNoUid ∧
     sdNoUid.uidAttr = none ∧
     (extractSegments "air" "W1" 1 [sdP, sdNoUid]).2[1]? = some segOut ∧
     segOut.uid = "W1" ++ "_SEGMENT" ++ fmt02 (1 + 1)) :=
  ⟨⟨rfl, rfl, rfl,
    fallback_naming.1 "air" [wdW, wdW, wdNoUid] 2 wdNoUid ⟨"WING03", 0, []⟩
      rfl rfl rfl⟩,
   ⟨rfl, rfl, rfl,
    fallback_naming.2 "air" "W1" [sdP, sdNoUid] 1 sdNoUid segOut rfl rfl rfl⟩⟩

-- ===================================================================
-- C6 / C7: atomicity and handle release of load
-- ===================================================================

theorem getAircraftNameS_refs (m : Bool) (u : Option String) (a : Aircraft) :
    ((getAircraftNameS m u a).2).refs = a.refs := by
  unfold getAircraftNameS
  rcases m with _ | _ <;> rcases u with _ | t <;> rfl

theorem getAircraftWingsS_refs (dir : String) (ne : Bool) (ws : List WingData)
    (a : Aircraft) : ((getAircraftWingsS dir ne ws a).2).refs = a.refs := by
  unfold getAircraftWingsS
  rcases ne with _ | _ <;> rfl

theorem getAircraftRefsS_error_chord (q : String → Option ℚ) (a : Aircraft)
    (e : LoadErr) (h : (getAircraftRefsS q a).1 = .error e) :
    ((getAircraftRefsS q a).2).refs.chord = a.refs.chord := by
  rcases hx : q "point/x" with _ | px <;>
    rcases hy : q "point/y" with _ | py <;>
      rcases hz : q "point/z" with _ | pz <;>
        rcases har : q "area" with _ | ar <;>
          rcases hln : q "length" with _ | l <;>
            simp_all [getAircraftRefsS]

/-- C7 (amended): `load` executes `tixi.close()` exactly on the
normal-completion path; every raising path — including every raising path
after the handle was opened — terminates with `closed = false`, because the
source has no `try`/`finally` around the extraction steps. -/
theorem load_close_iff_success (src : CpacsSource) (a : Aircraft)
    (dir : String) (out : LoadOutcome) (hl : load src a dir = out) :
    (out.res = .ok () → out.closed = true) ∧
    (∀ e, out.res = .error e → out.closed = false) := by
  simp only [load] at hl
  repeat' split at hl
  all_goals
    rw [← hl]
    constructor
    · intro hres
      first
      | rfl
      | simp at hres
    · intro e hres
      first
      | rfl
      | simp at hres

/-- C7 counterexample: a concrete raising path after the handle was opened
(the wings node is missing) on which `load` terminates with the handle still
open — the original claim that every exit path releases the handle is
false. -/
theorem load_handle_leak_counterexample :
    (load srcMissingWingsNode emptyAircraft "airfoils").opened = true ∧
    (load srcMissingWingsNode emptyAircraft "airfoils").res =
      .error .valueError ∧
    (load srcMissingWingsNode emptyAircraft "airfoils").closed = false :=
  ⟨rfl, rfl, rfl⟩

/-- Witness for the amended C7: a successful load closes the handle,
a failing load does not. -/
theorem load_close_iff_success_witness :
    ((load srcAllOk emptyAircraft "airfoils").res = .ok () ∧
     (load srcAllOk emptyAircraft "airfoils").closed = true) ∧
    ((load srcMissingWingsNode emptyAircraft "airfoils").res =
       .error .valueError ∧
     (load srcMissingWingsNode emptyAircraft "airfoils").closed = false) :=
  ⟨⟨rfl, (load_close_iff_success srcAllOk emptyAircraft "airfoils"
      (load srcAllOk emptyAircraft "airfoils") rfl).1 rfl⟩,
   ⟨rfl, (load_close_iff_success srcMissingWingsNode emptyAircraft "airfoils"
      (load srcMissingWingsNode emptyAircraft "airfoils") rfl).2
      .valueError rfl⟩⟩

/-- C6: whenever a step after the successful open of the geometry source
raises, the caller's aircraft object is not usable: at least the reference
quantities are incomplete (`refs` chord is never assigned on any such path),
so no fully populated Aircraft model is available — even though wings and
segments extracted before the failure remain in memory. -/
theorem load_error_not_fully_populated (src : CpacsSource) (a : Aircraft)
    (dir : String) (out : LoadOutcome) (e : LoadErr)
    (hf : src.fileExists = true) (ht : src.tixiOk = true)
    (hg : src.tiglOk = true) (hl : load src a dir = out)
    (he : out.res = .error e) :
    ¬ fullyPopulated out.aircraft := by
  have hchord : out.aircraft.refs.chord = none := by
    have hTF : ¬ (true = false) := by decide
    simp only [load] at hl
    rw [hf, ht, hg, if_neg hTF, if_neg hTF, if_neg hTF] at hl
    split at hl
    · -- name step failed
      rw [← hl]
      simp only [getAircraftNameS_refs]
      rfl
    · split at hl
      · -- wings step failed
        rw [← hl]
        simp only [getAircraftWingsS_refs, getAircraftNameS_refs]
        rfl
      · split at hl
        · -- airfoil file writing failed
          rw [← hl]
          simp only [getAircraftWingsS_refs, getAircraftNameS_refs]
          rfl
        · split at hl
          · -- reference extraction failed
            rename_i e4 heq4
            rw [← hl]
            simp only
            rw [getAircraftRefsS_error_chord _ _ e4 heq4,
              getAircraftWingsS_refs, getAircraftNameS_refs]
            rfl
          · -- successful load contradicts the error result
            rw [← hl] at he
            simp at he
  intro hfull
  rcases hfull with ⟨_, _, _, _, _, _, h7⟩
  rw [hchord] at h7
  simp at h7

/-- Witness for C6: airfoil file writing fails on profile 2 of 3 after one
wing with one segment was already extracted; no usable model results. -/
theorem load_error_not_fully_populated_witness :
    (srcWriteFail.fileExists = true ∧ srcWriteFail.tixiOk = true ∧
     srcWriteFail.tiglOk = true ∧
     (load srcWriteFail emptyAircraft "airfoils").res = .error .osError) ∧
    ¬ fullyPopulated (load srcWriteFail emptyAircraft "airfoils").aircraft :=
  ⟨⟨rfl, rfl, rfl, rfl⟩,
   load_error_not_fully_populated srcWriteFail emptyAircraft "airfoils"
     (load srcWriteFail emptyAircraft "airfoils") .osError rfl rfl rfl rfl rfl⟩

end PyTornado
